import Mathlib

/-!
Shallow embedding of the PWA service worker dispatcher (src/sw.js):
cache store, policy classifier, strategy executors, lifecycle handlers,
and the push/message bridge, with theorems checking the specification.
-/

namespace SW

/-- Configuration constant from sw.js: the app version string. -/
def APP_VERSION : String := "2.0.0"

/-- sw.js: CACHE_NAME is pwa-cache-v plus APP_VERSION with every dot replaced
by a dash (the regex replace with the global dot pattern is a per-character map). -/
def CACHE_NAME : String :=
  "pwa-cache-v" ++ String.mk (APP_VERSION.data.map (fun c => if c == '.' then '-' else c))

/-- sw.js: the durable offline namespace name. -/
def OFFLINE_CACHE : String := "offline-cache-v1"

/-- sw.js: network timeout in milliseconds. -/
def NETWORK_TIMEOUT : Nat := 5000

/-- sw.js: the install manifest of URLs precached into CACHE_NAME. -/
def PRECACHE_ASSETS : List String :=
  ["/", "/index.html", "/manifest.json", "/favicon.ico",
   "/assets/css/styles.css", "/assets/css/fonts.css",
   "/assets/js/app.js", "/assets/js/vendor.js",
   "/assets/images/icon-192.png", "/assets/images/icon-512.png",
   "/assets/images/logo.svg", "/assets/images/fallback.jpg",
   "/assets/fonts/roboto.woff2", "/offline.html"]

/-- An HTTP response as the strategies observe it: status, body, headers. -/
structure Response where
  status : Nat
  body : String
  headers : List (String × String)
deriving DecidableEq, Repr

/-- The ok getter of the Fetch API Response: status in the range 200 to 299. -/
def Response.ok (r : Response) : Bool := 200 ≤ r.status && r.status ≤ 299

/-- One cache namespace: a key to response mapping (assoc list, first match wins). -/
abbrev Cache := List (String × Response)

/-- cache.put: store a response under a key, replacing any previous entry. -/
def Cache.put (c : Cache) (k : String) (r : Response) : Cache :=
  (k, r) :: c.filter (fun p => p.1 != k)

/-- cache.match: look the key up, none models undefined. -/
def Cache.matchKey (c : Cache) (k : String) : Option Response :=
  (c.find? (fun p => p.1 == k)).map Prod.snd

/-- Outcome of one network fetch: the promise resolves with a response
(of any status) or rejects with a network level exception. -/
inductive FetchResult where
  | resolved (r : Response)
  | rejected
deriving DecidableEq, Repr

/-- Whether a fetch settled successfully at the promise level. -/
def FetchResult.settledOk : FetchResult → Bool
  | .resolved _ => true
  | .rejected => false

/-- JavaScript exceptions the handlers can raise. -/
inductive JsError where
  | referenceError (name : String)
  | typeError (msg : String)
  | jsonParseError
  | fetchError (msg : String)
deriving DecidableEq, Repr

/-- Timing of the API fetch relative to the 5000 ms timeout race:
either the fetch settles before the timeout fires (inTime, so the race
settles with the fetch outcome), or the timeout fires first (late, the
race rejects with the timeout error and the fetch settles afterwards). -/
inductive NetTiming where
  | inTime (r : FetchResult)
  | late (r : FetchResult)
deriving DecidableEq, Repr

/-- The race outcomes under which the API strategy takes its catch branch:
the fetch rejects within the timeout, or the timeout fires first. -/
def NetTiming.raceRejected : NetTiming → Bool
  | .inTime (.resolved _) => false
  | .inTime .rejected => true
  | .late _ => true

/-- The synthesized offline API response of handleApiRequest:
status 503, JSON body from stringifying the error object. -/
def offlineResponse (ts : String) : Response :=
  { status := 503
    body := "\x7b\"error\":\"You are offline\",\"timestamp\":\"" ++ ts
            ++ "\",\"cached\":true\x7d"
    headers := [("Content-Type", "application/json")] }

/-- sw.js handleApiRequest: race fetch against the timeout; on a settled
response, cache it when ok and return it; on race rejection (fetch error
or timeout), fall back to the cache, else synthesize the offline response.
When the timeout wins, the in flight fetch result is never observed again,
so the late branch performs no cache write. ts is the ISO timestamp the
handler would embed. Returns the response and the updated cache. -/
def handleApiRequest (net : NetTiming) (key ts : String) (cache : Cache) :
    Response × Cache :=
  match net with
  | .inTime (.resolved resp) =>
      if resp.ok then (resp, cache.put key resp) else (resp, cache)
  | .inTime .rejected | .late _ =>
      match cache.matchKey key with
      | some cached => (cached, cache)
      | none => (offlineResponse ts, cache)

/-- sw.js handleImageRequest: on a cache hit the code evaluates
event.waitUntil, but no binding named event is in scope inside this
function (the worker global scope has none), so the member access throws
a ReferenceError before any background fetch is issued. On a miss, fetch:
cache when ok and return the response; on fetch rejection return whatever
caches.match finds for the fallback image URL (fallback parameter, none
when nothing is cached there, in which case the function resolves with
undefined). -/
def handleImageRequest (net : FetchResult) (key : String) (cache : Cache)
    (fallback : Option Response) : Except JsError (Option Response × Cache) :=
  match cache.matchKey key with
  | some _ => .error (.referenceError "event")
  | none =>
      match net with
      | .resolved resp =>
          if resp.ok then .ok (some resp, cache.put key resp)
          else .ok (some resp, cache)
      | .rejected => .ok (fallback, cache)

/-- sw.js handleAssetRequest (stale while revalidate): always fetch; the
fetch continuation caches ok responses; its catch falls back to the cached
copy when one exists and otherwise throws. With a cached copy the function
returns it immediately (the background fetch only updates the cache);
without one it awaits the fetch, so a fetch rejection propagates as the
thrown error. -/
def handleAssetRequest (net : FetchResult) (key : String) (cache : Cache) :
    Except JsError (Response × Cache) :=
  let cacheAfter :=
    match net with
    | .resolved resp => if resp.ok then cache.put key resp else cache
    | .rejected => cache
  match cache.matchKey key with
  | some cached => .ok (cached, cacheAfter)
  | none =>
      match net with
      | .resolved resp => .ok (resp, cacheAfter)
      | .rejected => .error (.fetchError "Network failed and no cache available")

/-- sw.js handleHtmlRequest: fetch; cache ok responses and return the
network response; on fetch rejection return the cached copy, else whatever
caches.match finds for /offline.html (offlinePage parameter, none when
absent, in which case the function resolves with undefined). -/
def handleHtmlRequest (net : FetchResult) (key : String) (cache : Cache)
    (offlinePage : Option Response) : Option Response × Cache :=
  match net with
  | .resolved resp =>
      if resp.ok then (some resp, cache.put key resp) else (some resp, cache)
  | .rejected =>
      match cache.matchKey key with
      | some cached => (some cached, cache)
      | none => (offlinePage, cache)

/-- sw.js networkFirstWithCache: fetch; cache ok responses and return the
network response; on fetch rejection return the cached copy, else a
synthesized plain text 408 response. -/
def networkFirstWithCache (net : FetchResult) (key : String) (cache : Cache) :
    Response × Cache :=
  match net with
  | .resolved resp =>
      if resp.ok then (resp, cache.put key resp) else (resp, cache)
  | .rejected =>
      match cache.matchKey key with
      | some cached => (cached, cache)
      | none =>
          ({ status := 408
             body := "Network error and no cache available"
             headers := [("Content-Type", "text/plain")] }, cache)

/-- Policy classes of the fetch listener dispatch, bypass meaning the
listener returns without calling respondWith. -/
inductive Policy where
  | bypass | api | image | asset | html | dflt
deriving DecidableEq, Repr

/-- The startsWith method of JS strings: character prefix test. -/
def strStartsWith (s pre : String) : Bool :=
  pre.data.isPrefixOf s.data

/-- The includes method of JS strings: substring containment. -/
def strIncludes (s sub : String) : Bool :=
  s.data.tails.any (fun t => sub.data.isPrefixOf t)

/-- sw.js fetch listener dispatch: skip non GET, extension and sockjs-node
URLs; then route on the URL pathname prefix, then on the Accept header. -/
def classify (method url pathname : String) (accept : Option String) : Policy :=
  if method != "GET" || strStartsWith url "chrome-extension://"
      || strIncludes url "sockjs-node" then .bypass
  else if strStartsWith pathname "/api/" then .api
  else if strStartsWith pathname "/assets/images/" then .image
  else if strStartsWith pathname "/assets/" then .asset
  else if (accept.map (fun a => strIncludes a "text/html")).getD false then .html
  else .dflt

/-- The cache store: named namespaces, each a Cache. -/
abbrev Store := List (String × Cache)

/-- caches.keys: the namespace names present. -/
def Store.keys (s : Store) : List String := s.map Prod.fst

/-- caches.delete: remove a namespace by name. -/
def Store.deleteNs (s : Store) (n : String) : Store :=
  s.filter (fun p => p.1 != n)

/-- Outcome of a JS promise, collapsing resolution values. -/
inductive POutcome where
  | fulfilled
  | rejectedErr
deriving DecidableEq, Repr

/-- A catch handler that only logs: rejection becomes fulfillment with the
handler result. -/
def pcatch : POutcome → POutcome
  | .fulfilled => .fulfilled
  | .rejectedErr => .fulfilled

/-- cache.addAll over the manifest: rejects when any listed fetch rejects
or yields a non ok response. fetchOf gives each URL its fetch outcome. -/
def addAllOutcome (fetchOf : String → FetchResult) (urls : List String) : POutcome :=
  if urls.all (fun u => match fetchOf u with
      | .resolved r => r.ok
      | .rejected => false)
  then .fulfilled else .rejectedErr

/-- The inner Promise.all of the install listener: caching the manifest
into CACHE_NAME and /offline.html into OFFLINE_CACHE must both fulfill. -/
def installInner (fetchOf : String → FetchResult) : POutcome :=
  match addAllOutcome fetchOf PRECACHE_ASSETS,
        addAllOutcome fetchOf ["/offline.html"] with
  | .fulfilled, .fulfilled => .fulfilled
  | _, _ => .rejectedErr

/-- The promise the install listener hands to event.waitUntil: the inner
Promise.all followed by the catch that logs the installation failure. -/
def installWaitUntil (fetchOf : String → FetchResult) : POutcome :=
  pcatch (installInner fetchOf)

/-- One step of the activate cleanup map: delete the namespace when its
name is neither CACHE_NAME nor OFFLINE_CACHE. -/
def activateStep (acc : Store) (cacheName : String) : Store :=
  if cacheName != CACHE_NAME && cacheName != OFFLINE_CACHE
  then Store.deleteNs acc cacheName else acc

/-- sw.js activate listener cache cleanup: for every name in caches.keys,
delete it when it is neither CACHE_NAME nor OFFLINE_CACHE. -/
def activateCleanup (s : Store) : Store :=
  (Store.keys s).foldl activateStep s

/-- sw.js clearCache: delete every namespace listed by caches.keys. -/
def clearCache (s : Store) : Store :=
  (Store.keys s).foldl Store.deleteNs s

/-- caches.open: the namespace content, empty when absent. -/
def Store.openNs (s : Store) (n : String) : Cache :=
  ((s.find? (fun p => p.1 == n)).map Prod.snd).getD []

/-- Write a namespace back into the store. -/
def Store.setNs (s : Store) (n : String) (c : Cache) : Store :=
  (n, c) :: s.filter (fun p => p.1 != n)

/-- One entry of the updateAssets report. -/
structure UpdateResult where
  url : String
  status : String
  error : Option String
deriving DecidableEq, Repr

/-- Message text of a rejected fetch, opaque here. -/
def fetchExnMessage : String := "Failed to fetch"

/-- sw.js updateAssets: refetch each URL independently into the cache,
reporting updated or failed per URL. -/
def updateAssets (fetchOf : String → FetchResult) (urls : List String)
    (c : Cache) : Cache × List UpdateResult :=
  urls.foldl
    (fun acc url =>
      match fetchOf url with
      | .resolved r =>
          if r.ok then (acc.1.put url r, acc.2 ++ [⟨url, "updated", none⟩])
          else (acc.1, acc.2 ++ [⟨url, "failed", some "Network error"⟩])
      | .rejected => (acc.1, acc.2 ++ [⟨url, "failed", some fetchExnMessage⟩]))
    (c, [])

/-- A reply posted on the message port. -/
inductive Reply where
  | cacheInfo (cacheName version : String)
  | success (b : Bool)
  | updateReport (rs : List UpdateResult)
deriving DecidableEq, Repr

/-- The data field of an incoming message event: null, or an object with
an optional type string and (for UPDATE_ASSETS) a urls list. -/
inductive MessageData where
  | null
  | obj (type : Option String) (urls : List String)
deriving DecidableEq, Repr

/-- Effect of one message event: the store afterwards, the replies posted
on the port, and whether skipWaiting was called. -/
structure MessageResult where
  store : Store
  replies : List Reply
  skipWaiting : Bool
deriving DecidableEq, Repr

/-- sw.js message listener: reading type of null data throws a TypeError;
otherwise switch on the type string, posting exactly one reply for the
three replying message types and doing nothing for unrecognized ones.
hasPort states whether event.ports has a first element; posting without
one throws. -/
def handleMessage (fetchOf : String → FetchResult) (d : MessageData)
    (hasPort : Bool) (s : Store) : Except JsError MessageResult :=
  match d with
  | .null => .error (.typeError "cannot read properties of null")
  | .obj t urls =>
      match t with
      | some "SKIP_WAITING" => .ok ⟨s, [], true⟩
      | some "GET_CACHE_INFO" =>
          if hasPort then .ok ⟨s, [.cacheInfo CACHE_NAME APP_VERSION], false⟩
          else .error (.typeError "cannot read properties of undefined")
      | some "CLEAR_CACHE" =>
          if hasPort then .ok ⟨clearCache s, [.success true], false⟩
          else .error (.typeError "cannot read properties of undefined")
      | some "UPDATE_ASSETS" =>
          if hasPort then
            let res := updateAssets fetchOf urls (s.openNs CACHE_NAME)
            .ok ⟨s.setNs CACHE_NAME res.1, [.updateReport res.2], false⟩
          else .error (.typeError "cannot read properties of undefined")
      | _ => .ok ⟨s, [], false⟩

/-- Push payload fields the handler reads, none modelling an absent field. -/
structure PushPayload where
  title : Option String
  body : Option String
  icon : Option String
  image : Option String
  dataF : Option (List (String × String))
  actions : Option (List String)
  tag : Option String
  requireInteraction : Option Bool
  silent : Option Bool
  timestamp : Option Nat
  vibrate : Option (List Nat)
deriving DecidableEq, Repr

/-- The options object handed to showNotification. -/
structure NotificationOptions where
  body : String
  icon : String
  badge : String
  image : Option String
  dataF : List (String × String)
  actions : List String
  tag : String
  requireInteraction : Bool
  silent : Bool
  timestamp : Nat
  vibrate : List Nat
deriving DecidableEq, Repr

/-- The data of a push event: absent, present but not valid JSON (json()
throws), or a parsed payload. -/
inductive PushEventData where
  | absent
  | malformed
  | payload (p : PushPayload)
deriving DecidableEq, Repr

/-- Observable effect of the push listener. -/
inductive PushEffect where
  | noop
  | show (title : String) (opts : NotificationOptions)
deriving DecidableEq, Repr

/-- sw.js push listener: return when event.data is absent; parse it as
JSON (throwing on malformed data); build the options with the source
defaults (image gets none) and show the notification. now is Date.now(). -/
def handlePush (d : PushEventData) (now : Nat) : Except JsError PushEffect :=
  match d with
  | .absent => .ok .noop
  | .malformed => .error .jsonParseError
  | .payload p =>
      .ok (.show (p.title.getD "My PWA")
        { body := p.body.getD "New notification"
          icon := p.icon.getD "/assets/images/icon-192.png"
          badge := "/assets/images/badge-72.png"
          image := p.image
          dataF := p.dataF.getD []
          actions := p.actions.getD []
          tag := p.tag.getD "default"
          requireInteraction := p.requireInteraction.getD false
          silent := p.silent.getD false
          timestamp := p.timestamp.getD now
          vibrate := p.vibrate.getD [200, 100, 200] })

/-! Concrete fixtures used to instantiate the theorems. -/

/-- The 2xx network response of the API scenario of the spec. -/
def freshWidget : Response :=
  { status := 200
    body := "\x7b\"id\":1\x7d"
    headers := [("Content-Type", "application/json")] }

/-- A cached image entry. -/
def logoSvg : Response :=
  { status := 200, body := "svg-bytes", headers := [("Content-Type", "image/svg+xml")] }

/-- A stale cached stylesheet entry. -/
def staleCss : Response :=
  { status := 200, body := "body-old", headers := [("Content-Type", "text/css")] }

/-- A fresh network stylesheet response. -/
def freshCss : Response :=
  { status := 200, body := "body-new", headers := [("Content-Type", "text/css")] }

/-- A non 2xx network response. -/
def notFound : Response :=
  { status := 404, body := "not found", headers := [] }

/-- A trivial successful response for manifest fetches. -/
def okEmpty : Response :=
  { status := 200, body := "", headers := [] }

/-- Fetch behavior in which the favicon manifest fetch rejects while every
other fetch resolves with a 2xx. -/
def failingFetch : String → FetchResult :=
  fun u => if u == "/favicon.ico" then .rejected else .resolved okEmpty

/-- A push payload with every optional field absent. -/
def emptyPayload : PushPayload :=
  ⟨none, none, none, none, none, none, none, none, none, none, none⟩

/-! Lemmas about the delete folds of activate and clearCache. -/

/-- The computed current namespace name, fixed once for reference. -/
theorem CACHE_NAME_eq : CACHE_NAME = "pwa-cache-v2-0-0" := rfl

/-- Storing under a key makes the cache answer that key with the stored
response. -/
theorem Cache.matchKey_put (c : Cache) (k : String) (r : Response) :
    Cache.matchKey (Cache.put c k r) k = some r := by
  simp [Cache.put, Cache.matchKey, List.find?]

theorem mem_keys_of_mem_keys_deleteNs {s : Store} {m n : String}
    (h : m ∈ Store.keys (Store.deleteNs s n)) : m ∈ Store.keys s := by
  simp only [Store.keys, Store.deleteNs, List.mem_map] at h ⊢
  obtain ⟨p, hp, rfl⟩ := h
  exact ⟨p, (List.mem_filter.mp hp).1, rfl⟩

theorem not_mem_keys_deleteNs_self (s : Store) (m : String) :
    m ∉ Store.keys (Store.deleteNs s m) := by
  simp only [Store.keys, Store.deleteNs, List.mem_map]
  rintro ⟨p, hp, rfl⟩
  have hne := (List.mem_filter.mp hp).2
  simp at hne

theorem foldl_keys_subset (f : Store → String → Store)
    (hf : ∀ acc n, f acc n = Store.deleteNs acc n ∨ f acc n = acc)
    (names : List String) :
    ∀ (acc : Store) (m : String),
      m ∈ Store.keys (List.foldl f acc names) → m ∈ Store.keys acc := by
  induction names with
  | nil => intro acc m h; simpa using h
  | cons n rest ih =>
      intro acc m h
      have h2 := ih (f acc n) m h
      rcases hf acc n with he | he
      · rw [he] at h2; exact mem_keys_of_mem_keys_deleteNs h2
      · rwa [he] at h2

theorem foldl_not_mem_keys (f : Store → String → Store)
    (hf : ∀ acc n, f acc n = Store.deleteNs acc n ∨ f acc n = acc)
    (names : List String) :
    ∀ (acc : Store) (m : String),
      m ∉ Store.keys acc → m ∉ Store.keys (List.foldl f acc names) := by
  induction names with
  | nil => intro acc m h; simpa using h
  | cons n rest ih =>
      intro acc m h
      apply ih
      rcases hf acc n with he | he
      · rw [he]; intro hc; exact h (mem_keys_of_mem_keys_deleteNs hc)
      · rwa [he]

theorem foldl_deletes (f : Store → String → Store)
    (hf : ∀ acc n, f acc n = Store.deleteNs acc n ∨ f acc n = acc)
    (m : String) (hm : ∀ acc, f acc m = Store.deleteNs acc m)
    (names : List String) :
    ∀ acc : Store, m ∈ names → m ∉ Store.keys (List.foldl f acc names) := by
  induction names with
  | nil => intro acc h; cases h
  | cons n rest ih =>
      intro acc hmem
      rcases List.mem_cons.mp hmem with rfl | hr
      · have hgone : m ∉ Store.keys (f acc m) := by
          rw [hm acc]; exact not_mem_keys_deleteNs_self acc m
        exact foldl_not_mem_keys f hf rest (f acc m) m hgone
      · exact ih (f acc n) hr

theorem activateStep_cases (acc : Store) (n : String) :
    activateStep acc n = Store.deleteNs acc n ∨ activateStep acc n = acc := by
  unfold activateStep
  split
  · exact Or.inl rfl
  · exact Or.inr rfl

theorem clearCache_eq_nil (s : Store) : clearCache s = [] := by
  have hf : ∀ (acc : Store) (n : String),
      Store.deleteNs acc n = Store.deleteNs acc n ∨ Store.deleteNs acc n = acc :=
    fun _ _ => Or.inl rfl
  have hkeys : ∀ m, m ∉ Store.keys (clearCache s) := by
    intro m
    by_cases hmem : m ∈ Store.keys s
    · exact foldl_deletes Store.deleteNs hf m (fun _ => rfl) (Store.keys s) s hmem
    · intro hc
      exact hmem (foldl_keys_subset Store.deleteNs hf (Store.keys s) s m hc)
  cases hsr : clearCache s with
  | nil => rfl
  | cons p rest =>
      exact absurd (by rw [hsr]; exact List.mem_map_of_mem Prod.fst (List.mem_cons_self p rest))
        (hkeys p.1)

/-! Theorems settling the claims. -/

set_option maxRecDepth 10000 in
/-- Claim C1, refuted by the code: for an IMAGE classified GET request with
a pre existing entry in the current namespace, handleImageRequest does not
return the cached entry; it throws a ReferenceError because no binding
named event exists inside the function, so the executor does throw on this
path instead of terminating in a Response. -/
theorem image_cache_hit_throws_reference_error :
    classify "GET" "https://app.example/assets/images/logo.svg"
        "/assets/images/logo.svg" none = Policy.image
    ∧ Cache.matchKey [("/assets/images/logo.svg", logoSvg)] "/assets/images/logo.svg"
        = some logoSvg
    ∧ handleImageRequest (.resolved logoSvg) "/assets/images/logo.svg"
        [("/assets/images/logo.svg", logoSvg)] none
      = .error (.referenceError "event") := by
  refine ⟨by decide, rfl, rfl⟩

/-- Claim C2: for a GET request whose pathname starts with /api/, hence
classified API, whose fetch settles within the timeout with a 2xx status,
handleApiRequest returns a response whose body is the network body, and
the cache entry for the request key now holds that network response. -/
theorem api_2xx_returns_body_and_caches (resp : Response)
    (url pathname ts : String) (accept : Option String) (cache : Cache)
    (hok : resp.ok = true)
    (hpath : strStartsWith pathname "/api/" = true)
    (hurl : strStartsWith url "chrome-extension://" = false)
    (hurl2 : strIncludes url "sockjs-node" = false) :
    classify "GET" url pathname accept = Policy.api
    ∧ (handleApiRequest (.inTime (.resolved resp)) pathname ts cache).1.body
        = resp.body
    ∧ Cache.matchKey
        (handleApiRequest (.inTime (.resolved resp)) pathname ts cache).2 pathname
      = some resp := by
  refine ⟨?_, ?_, ?_⟩
  · simp [classify, hpath, hurl, hurl2]
  · simp [handleApiRequest, hok]
  · simp [handleApiRequest, hok, Cache.matchKey_put]

set_option maxRecDepth 10000 in
/-- Witness for C2 at the /api/widgets scenario of the spec. -/
theorem api_2xx_returns_body_and_caches_witness :
    classify "GET" "https://app.example/api/widgets" "/api/widgets" none = Policy.api
    ∧ (handleApiRequest (.inTime (.resolved freshWidget)) "/api/widgets" "t0" []).1.body
        = freshWidget.body
    ∧ Cache.matchKey
        (handleApiRequest (.inTime (.resolved freshWidget)) "/api/widgets" "t0" []).2
        "/api/widgets"
      = some freshWidget :=
  api_2xx_returns_body_and_caches freshWidget "https://app.example/api/widgets"
    "/api/widgets" "t0" none [] (by decide) (by decide) (by decide) (by decide)

/-- Claim C3, refuted by the code: with the favicon manifest fetch
rejected, the inner install promise rejects, but the catch handler that
only logs the failure converts the rejection into fulfillment, so the
promise handed to event.waitUntil fulfills and the install is reported
successful despite the partially populated namespace. -/
theorem install_manifest_failure_swallowed :
    failingFetch "/favicon.ico" = FetchResult.rejected
    ∧ "/favicon.ico" ∈ PRECACHE_ASSETS
    ∧ installInner failingFetch = POutcome.rejectedErr
    ∧ installWaitUntil failingFetch = POutcome.fulfilled := by
  refine ⟨rfl, by decide, by decide, by decide⟩

/-- Claim C4: every namespace name still present after the activate
cleanup is the current CACHE_NAME or the OFFLINE_CACHE. -/
theorem activate_leaves_only_current_and_offline (s : Store) (n : String)
    (h : n ∈ Store.keys (activateCleanup s)) :
    n = CACHE_NAME ∨ n = OFFLINE_CACHE := by
  by_contra hc
  push_neg at hc
  obtain ⟨h1, h2⟩ := hc
  have h' : n ∈ Store.keys (List.foldl activateStep s (Store.keys s)) := h
  have hmem : n ∈ Store.keys s :=
    foldl_keys_subset activateStep activateStep_cases (Store.keys s) s n h'
  have hdel : ∀ acc : Store, activateStep acc n = Store.deleteNs acc n := by
    intro acc
    simp [activateStep, bne_iff_ne, h1, h2]
  exact foldl_deletes activateStep activateStep_cases n hdel (Store.keys s) s hmem h'

set_option maxRecDepth 10000 in
/-- Witness for C4: with a stale namespace and the offline namespace
present, any surviving name is current or offline. -/
theorem activate_leaves_only_current_and_offline_witness :
    "offline-cache-v1" = CACHE_NAME ∨ "offline-cache-v1" = OFFLINE_CACHE :=
  activate_leaves_only_current_and_offline
    [("pwa-cache-v1-0-0", []), ("offline-cache-v1", [])] "offline-cache-v1" (by decide)

/-- Claim C5, as stated, is false at this input: the cache is empty, the
timeout wins the race, and the fetch later resolves with a 2xx response,
yet no best effort background write happens: the final cache still has no
entry for the key. -/
theorem api_late_2xx_not_cached_cex :
    freshWidget.ok = true
    ∧ (handleApiRequest (.late (.resolved freshWidget)) "/api/widgets" "t0" []).2 = []
    ∧ Cache.matchKey
        (handleApiRequest (.late (.resolved freshWidget)) "/api/widgets" "t0" []).2
        "/api/widgets"
      = none := by
  refine ⟨by decide, rfl, rfl⟩

/-- Claim C5 amended: when the timeout wins the race the handler never
observes the in flight fetch again, so whatever the late outcome, the
cache is left exactly as it was. -/
theorem api_timeout_discards_late_result (r : FetchResult) (key ts : String)
    (c : Cache) :
    (handleApiRequest (.late r) key ts c).2 = c := by
  cases hc : Cache.matchKey c key <;> simp [handleApiRequest, hc]

/-- Claim C6: when the race rejects (fetch error in time, or timeout) and
the cache has no entry for the key, handleApiRequest returns the
synthesized offline response: status 503 and a stringified JSON body
holding the error field You are offline and the timestamp. -/
theorem api_offline_synthesizes_503 (net : NetTiming) (key ts : String)
    (cache : Cache) (hfail : net.raceRejected = true)
    (hmiss : Cache.matchKey cache key = none) :
    (handleApiRequest net key ts cache).1 = offlineResponse ts
    ∧ (offlineResponse ts).status = 503
    ∧ (offlineResponse ts).body
        = "\x7b\"error\":\"You are offline\",\"timestamp\":\"" ++ ts
          ++ "\",\"cached\":true\x7d" := by
  refine ⟨?_, rfl, rfl⟩
  cases net with
  | inTime r =>
      cases r with
      | resolved resp => simp [NetTiming.raceRejected] at hfail
      | rejected => simp [handleApiRequest, hmiss]
  | late r => simp [handleApiRequest, hmiss]

/-- Witness for C6: timeout with an empty cache yields the 503 offline
response. -/
theorem api_offline_synthesizes_503_witness :
    (handleApiRequest (.late .rejected) "/api/widgets" "t0" []).1
        = offlineResponse "t0"
    ∧ (offlineResponse "t0").status = 503
    ∧ (offlineResponse "t0").body
        = "\x7b\"error\":\"You are offline\",\"timestamp\":\"" ++ "t0"
          ++ "\",\"cached\":true\x7d" :=
  api_offline_synthesizes_503 (.late .rejected) "/api/widgets" "t0" [] rfl rfl

/-- Claim C7: the asset strategy returns the stale cached entry when one
exists, updating the cache to the fresh 2xx value; without a cached entry
the fetch is awaited directly, returning its 2xx result or propagating
its failure as the thrown error. -/
theorem asset_stale_while_revalidate (key : String) (chit cmiss : Cache)
    (cached fresh : Response)
    (hhit : Cache.matchKey chit key = some cached)
    (hmiss : Cache.matchKey cmiss key = none)
    (hok : fresh.ok = true) :
    handleAssetRequest (.resolved fresh) key chit = .ok (cached, chit.put key fresh)
    ∧ handleAssetRequest .rejected key chit = .ok (cached, chit)
    ∧ handleAssetRequest (.resolved fresh) key cmiss = .ok (fresh, cmiss.put key fresh)
    ∧ handleAssetRequest .rejected key cmiss
        = .error (.fetchError "Network failed and no cache available") := by
  refine ⟨?_, ?_, ?_, ?_⟩ <;> simp [handleAssetRequest, hhit, hmiss, hok]

/-- Witness for C7 on a concrete stylesheet. -/
theorem asset_stale_while_revalidate_witness :
    handleAssetRequest (.resolved freshCss) "/assets/css/styles.css"
        [("/assets/css/styles.css", staleCss)]
      = .ok (staleCss, Cache.put [("/assets/css/styles.css", staleCss)]
          "/assets/css/styles.css" freshCss)
    ∧ handleAssetRequest .rejected "/assets/css/styles.css"
        [("/assets/css/styles.css", staleCss)]
      = .ok (staleCss, [("/assets/css/styles.css", staleCss)])
    ∧ handleAssetRequest (.resolved freshCss) "/assets/css/styles.css" []
      = .ok (freshCss, Cache.put [] "/assets/css/styles.css" freshCss)
    ∧ handleAssetRequest .rejected "/assets/css/styles.css" []
      = .error (.fetchError "Network failed and no cache available") :=
  asset_stale_while_revalidate "/assets/css/styles.css"
    [("/assets/css/styles.css", staleCss)] [] staleCss freshCss rfl rfl (by decide)

/-- Claim C8, as stated, is false at this input: the asset strategy with a
cache hit and a 404 network response hands the caller the cached entry,
not the 404 response, so a non 2xx response is not always returned. -/
theorem asset_hit_non2xx_returns_cached_cex :
    notFound.ok = false
    ∧ handleAssetRequest (.resolved notFound) "/assets/css/styles.css"
        [("/assets/css/styles.css", staleCss)]
      = .ok (staleCss, [("/assets/css/styles.css", staleCss)])
    ∧ staleCss ≠ notFound := by
  refine ⟨by decide, rfl, by decide⟩

/-- Claim C8 amended: a non 2xx network response is never written to the
cache in any strategy, and never triggers a fallback; the foreground
paths (API in time, IMAGE miss, ASSET miss, HTML, DEFAULT) return it to
the caller unchanged, while the ASSET cache hit path returns the cached
entry whatever the network status. -/
theorem non2xx_never_cached (r cached : Response) (key ts : String)
    (chit cmiss : Cache) (fb off : Option Response)
    (hok : r.ok = false)
    (hhit : Cache.matchKey chit key = some cached)
    (hmiss : Cache.matchKey cmiss key = none) :
    handleApiRequest (.inTime (.resolved r)) key ts chit = (r, chit)
    ∧ handleImageRequest (.resolved r) key cmiss fb = .ok (some r, cmiss)
    ∧ handleAssetRequest (.resolved r) key cmiss = .ok (r, cmiss)
    ∧ handleAssetRequest (.resolved r) key chit = .ok (cached, chit)
    ∧ handleHtmlRequest (.resolved r) key chit off = (some r, chit)
    ∧ networkFirstWithCache (.resolved r) key cmiss = (r, cmiss) := by
  refine ⟨?_, ?_, ?_, ?_, ?_, ?_⟩ <;>
    simp [handleApiRequest, handleImageRequest, handleAssetRequest,
      handleHtmlRequest, networkFirstWithCache, hok, hhit, hmiss]

/-- Witness for the amended C8 with a 404 against a hit and a miss cache. -/
theorem non2xx_never_cached_witness :
    handleApiRequest (.inTime (.resolved notFound)) "/assets/css/styles.css" "t0"
        [("/assets/css/styles.css", staleCss)]
      = (notFound, [("/assets/css/styles.css", staleCss)])
    ∧ handleImageRequest (.resolved notFound) "/assets/css/styles.css" [] none
      = .ok (some notFound, [])
    ∧ handleAssetRequest (.resolved notFound) "/assets/css/styles.css" []
      = .ok (notFound, [])
    ∧ handleAssetRequest (.resolved notFound) "/assets/css/styles.css"
        [("/assets/css/styles.css", staleCss)]
      = .ok (staleCss, [("/assets/css/styles.css", staleCss)])
    ∧ handleHtmlRequest (.resolved notFound) "/assets/css/styles.css"
        [("/assets/css/styles.css", staleCss)] none
      = (some notFound, [("/assets/css/styles.css", staleCss)])
    ∧ networkFirstWithCache (.resolved notFound) "/assets/css/styles.css" []
      = (notFound, []) :=
  non2xx_never_cached notFound staleCss "/assets/css/styles.css" "t0"
    [("/assets/css/styles.css", staleCss)] [] none none (by decide) rfl rfl

/-- Claim C9: a CLEAR_CACHE control message with a reply port deletes
every namespace, the offline one included, and posts exactly one reply,
the success true object. -/
theorem clear_cache_deletes_all_and_replies_once
    (fetchOf : String → FetchResult) (urls : List String) (s : Store) :
    handleMessage fetchOf (.obj (some "CLEAR_CACHE") urls) true s
      = .ok ⟨[], [Reply.success true], false⟩ := by
  have h : handleMessage fetchOf (.obj (some "CLEAR_CACHE") urls) true s
      = .ok ⟨clearCache s, [Reply.success true], false⟩ := rfl
  rw [h, clearCache_eq_nil]

/-- Claim C10, as stated, is false at these inputs: a push payload that is
not valid JSON makes the push listener throw from json(), and a message
event whose data is null makes the message listener throw while reading
its type property; both exceptions escape the dispatcher. -/
theorem malformed_push_and_message_throw_cex :
    handlePush PushEventData.malformed 0 = .error JsError.jsonParseError
    ∧ handleMessage (fun _ => FetchResult.rejected) MessageData.null true []
        = .error (JsError.typeError "cannot read properties of null") :=
  ⟨rfl, rfl⟩

/-- Claim C10 amended: the push handler does nothing when no data is
present and fills every missing field of a well formed payload with its
fixed default, except image which stays absent; the message handler
produces no effect for an object message whose type is unrecognized or
missing; but a push payload that is not valid JSON, and a message whose
data is null, throw uncaught. -/
theorem bridge_defaults_and_ignores (now : Nat) (t : String)
    (urls : List String) (fetchOf : String → FetchResult) (s : Store)
    (hunrec : t ∉ (["SKIP_WAITING", "GET_CACHE_INFO", "CLEAR_CACHE",
      "UPDATE_ASSETS"] : List String)) :
    handlePush PushEventData.absent now = .ok PushEffect.noop
    ∧ handlePush (.payload emptyPayload) now
        = .ok (.show "My PWA"
            ⟨"New notification", "/assets/images/icon-192.png",
             "/assets/images/badge-72.png", none, [], [], "default",
             false, false, now, [200, 100, 200]⟩)
    ∧ handleMessage fetchOf (.obj (some t) urls) true s = .ok ⟨s, [], false⟩
    ∧ handleMessage fetchOf (.obj none urls) true s = .ok ⟨s, [], false⟩
    ∧ (handlePush PushEventData.malformed now).isOk = false
    ∧ (handleMessage fetchOf MessageData.null true s).isOk = false := by
  simp only [List.mem_cons, List.not_mem_nil, or_false, not_or] at hunrec
  obtain ⟨h1, h2, h3, h4⟩ := hunrec
  refine ⟨rfl, rfl, ?_, rfl, rfl, rfl⟩
  simp only [handleMessage]
  split
  all_goals rename_i heq
  all_goals try rfl
  all_goals injection heq with heq
  · exact absurd heq h1
  · exact absurd heq h2
  · exact absurd heq h3
  · exact absurd heq h4

/-- Witness for the amended C10 at a concrete unrecognized message type. -/
theorem bridge_defaults_and_ignores_witness :
    handlePush PushEventData.absent 7 = .ok PushEffect.noop
    ∧ handlePush (.payload emptyPayload) 7
        = .ok (.show "My PWA"
            ⟨"New notification", "/assets/images/icon-192.png",
             "/assets/images/badge-72.png", none, [], [], "default",
             false, false, 7, [200, 100, 200]⟩)
    ∧ handleMessage (fun _ => FetchResult.rejected) (.obj (some "PING") []) true []
        = .ok ⟨[], [], false⟩
    ∧ handleMessage (fun _ => FetchResult.rejected) (.obj none []) true []
        = .ok ⟨[], [], false⟩
    ∧ (handlePush PushEventData.malformed 7).isOk = false
    ∧ (handleMessage (fun _ => FetchResult.rejected) MessageData.null true []).isOk
        = false :=
  bridge_defaults_and_ignores 7 "PING" [] (fun _ => FetchResult.rejected) []
    (by decide)

end SW
